import Mathlib

/-!
# Verification of the servis time-series plotting library

A shallow embedding of the core data-handling logic of the `servis`
repository (input preprocessing, histogram bar layout, tag annotation,
color resolution, gradient coloring, and the text backend's file
handling), together with theorems settling the frozen claims about it.

Numeric values are modelled as rationals (`ℚ`); Python `min`/`max` over
possibly-empty sequences are modelled with `Option`, mirroring the
`ValueError` raised on empty input.
-/

namespace Servis

/-- Minimum of a list of rationals; `none` on the empty list,
mirroring Python's `min([])` raising `ValueError`. -/
def listMin : List ℚ → Option ℚ
  | [] => none
  | x :: xs =>
    match listMin xs with
    | none => some x
    | some m => some (min x m)

/-- Maximum of a list of rationals; `none` on the empty list,
mirroring Python's `max([])` raising `ValueError`. -/
def listMax : List ℚ → Option ℚ
  | [] => none
  | x :: xs =>
    match listMax xs with
    | none => some x
    | some m => some (max x m)

/-- Preprocessing performed by `render_time_series_plot_with_histogram`
(`src/servis/time_series.py`, lines 681-688):

    start = 1 if skipfirst else 0
    xdata = np.array(xdata[start:], copy=True)
    ydata = np.array(ydata[start:], copy=True)
    minx = 0
    if trimxvalues:
        minx = min(xdata)
        xdata = [x - minx for x in xdata]

Returns the adjusted x data, adjusted y data, and the trim offset
`minx`; `none` models the `ValueError` of `min` on an empty sequence. -/
def preprocess_single (skipfirst trimxvalues : Bool) (xdata ydata : List ℚ) :
    Option (List ℚ × List ℚ × ℚ) :=
  let start := if skipfirst then 1 else 0
  let xdata := xdata.drop start
  let ydata := ydata.drop start
  if trimxvalues then
    match listMin xdata with
    | none => none
    | some minx => some (xdata.map (fun x => x - minx), ydata, minx)
  else
    some (xdata, ydata, 0)

/-- Preprocessing performed by `render_multiple_time_series_plot`
(`src/servis/time_series.py`, lines 851-858):

    start = 1 if skipfirst else 0
    xdata = np.array(xdata[start:], copy=True)
    for ydata in ydatas:
        ydata = np.array(ydata[start:], copy=True)
    if trimxvalues:
        minx = min(xdata)
        xdata = [x - minx for x in xdata]

The `for` loop only rebinds the loop variable `ydata`; the list
`ydatas` is left unchanged, so the y series are passed through as-is.
The third component is the offset `minx`: it is `none` when
`trimxvalues` is false, since the source never assigns `minx` in that
case (its later use would raise `NameError`). -/
def preprocess_multi (skipfirst trimxvalues : Bool) (xdata : List ℚ)
    (ydatas : List (List ℚ)) :
    Option (List ℚ × List (List ℚ) × Option ℚ) :=
  let start := if skipfirst then 1 else 0
  let xdata := xdata.drop start
  if trimxvalues then
    match listMin xdata with
    | none => none
    | some minx => some (xdata.map (fun x => x - minx), ydatas, some minx)
  else
    some (xdata, ydatas, none)

theorem listMin_eq_none {l : List ℚ} : listMin l = none ↔ l = [] := by
  cases l with
  | nil => simp [listMin]
  | cons x xs =>
    simp only [listMin]
    cases listMin xs <;> simp

theorem listMin_map_sub (c : ℚ) :
    ∀ l : List ℚ, listMin (l.map (fun x => x - c)) = (listMin l).map (fun x => x - c)
  | [] => rfl
  | x :: xs => by
    simp only [List.map_cons, listMin, listMin_map_sub c xs]
    cases listMin xs with
    | none => rfl
    | some m => simp [min_sub_sub_right]

theorem listMin_mem {l : List ℚ} {m : ℚ} (h : listMin l = some m) : m ∈ l := by
  induction l generalizing m with
  | nil => simp [listMin] at h
  | cons x xs ih =>
    simp only [listMin] at h
    cases hxs : listMin xs with
    | none => rw [hxs] at h; simp at h; simp [h]
    | some m' =>
      rw [hxs] at h
      simp only [Option.some.injEq] at h
      rcases le_total x m' with hle | hle
      · have : m = x := by rw [← h, min_eq_left hle]
        simp [this]
      · have : m = m' := by rw [← h, min_eq_right hle]
        exact List.mem_cons_of_mem _ (this ▸ ih hxs)

theorem listMin_le {l : List ℚ} {m : ℚ} (h : listMin l = some m) :
    ∀ x ∈ l, m ≤ x := by
  induction l generalizing m with
  | nil => simp
  | cons a as ih =>
    simp only [listMin] at h
    intro x hx
    cases has : listMin as with
    | none =>
      rw [has] at h
      simp only [Option.some.injEq] at h
      have : as = [] := listMin_eq_none.mp has
      subst this
      simp at hx
      simp [hx, ← h]
    | some m' =>
      rw [has] at h
      simp only [Option.some.injEq] at h
      rcases List.mem_cons.mp hx with rfl | hmem
      · rw [← h]; exact min_le_left _ _
      · rw [← h]; exact le_trans (min_le_right _ _) (ih has x hmem)

theorem listMax_mem {l : List ℚ} {m : ℚ} (h : listMax l = some m) : m ∈ l := by
  induction l generalizing m with
  | nil => simp [listMax] at h
  | cons x xs ih =>
    simp only [listMax] at h
    cases hxs : listMax xs with
    | none => rw [hxs] at h; simp at h; simp [h]
    | some m' =>
      rw [hxs] at h
      simp only [Option.some.injEq] at h
      rcases le_total x m' with hle | hle
      · have : m = m' := by rw [← h, max_eq_right hle]
        exact List.mem_cons_of_mem _ (this ▸ ih hxs)
      · have : m = x := by rw [← h, max_eq_left hle]
        simp [this]

/-- `listMax l = none` exactly on the empty list. -/
theorem listMax_eq_none {l : List ℚ} : listMax l = none ↔ l = [] := by
  cases l with
  | nil => simp [listMax]
  | cons x xs =>
    simp only [listMax]
    cases listMax xs <;> simp

theorem listMax_ge {l : List ℚ} {m : ℚ} (h : listMax l = some m) :
    ∀ x ∈ l, x ≤ m := by
  induction l generalizing m with
  | nil => simp
  | cons a as ih =>
    simp only [listMax] at h
    intro x hx
    cases has : listMax as with
    | none =>
      rw [has] at h
      simp only [Option.some.injEq] at h
      have : as = [] := listMax_eq_none.mp has
      subst this
      simp at hx
      simp [hx, ← h]
    | some m' =>
      rw [has] at h
      simp only [Option.some.injEq] at h
      rcases List.mem_cons.mp hx with rfl | hmem
      · rw [← h]; exact le_max_left _ _
      · rw [← h]; exact le_trans (ih has x hmem) (le_max_right _ _)

/-- Claim C1: the claim states that with `skip_first` true, index 0 is
dropped from both the x sequence and the y sequence of every series in
both entry points.  The single-plot entry point does so, but in
`render_multiple_time_series_plot` the statement
`for ydata in ydatas: ydata = np.array(ydata[start:], copy=True)` only
rebinds the loop variable, so the y series are left unchanged: with
`skipfirst=True`, `xdata=[10,20,30]`, `ydatas=[[1,2,3]]`, the adjusted
x has length 2 while the y series still has length 3. -/
theorem skip_first_multi_leaves_y_unchanged :
    preprocess_multi true true [10, 20, 30] [[1, 2, 3]]
      = some ([0, 10], [[1, 2, 3]], some 20) ∧
    preprocess_single true true [10, 20, 30] [1, 2, 3]
      = some ([0, 10], [2, 3], 20) := by
  constructor <;> norm_num [preprocess_multi, preprocess_single, listMin, min_def]

/-- Claim C2: when x-trimming is enabled, the offset `min(x)` over the
skip-adjusted x values is subtracted from every x value, so the minimum
of the adjusted x values is 0 — in both the single-plot and the
multi-plot entry points (for any series whose skip-adjusted x data is
nonempty). -/
theorem trim_min_adjusted_eq_zero (skipfirst : Bool) (xdata ydata : List ℚ)
    (ydatas : List (List ℚ))
    (h : xdata.drop (if skipfirst then 1 else 0) ≠ []) :
    (∃ x' y' m, preprocess_single skipfirst true xdata ydata = some (x', y', m) ∧
      listMin x' = some 0) ∧
    (∃ x' ys m, preprocess_multi skipfirst true xdata ydatas = some (x', ys, m) ∧
      listMin x' = some 0) := by
  cases hmin : listMin (xdata.drop (if skipfirst then 1 else 0)) with
  | none => exact absurd (listMin_eq_none.mp hmin) h
  | some minx =>
    have hzero : listMin ((xdata.drop (if skipfirst then 1 else 0)).map
        (fun x => x - minx)) = some 0 := by
      rw [listMin_map_sub, hmin]
      simp
    constructor
    · refine ⟨(xdata.drop (if skipfirst then 1 else 0)).map (fun x => x - minx),
        ydata.drop (if skipfirst then 1 else 0), minx, ?_, hzero⟩
      simp only [preprocess_single, hmin, if_true]
    · refine ⟨(xdata.drop (if skipfirst then 1 else 0)).map (fun x => x - minx),
        ydatas, some minx, ?_, hzero⟩
      simp only [preprocess_multi, hmin, if_true]

/-- A single-timestamp tag, `{'name': ..., 'timestamp': ...}`. -/
structure SingleTag where
  name : String
  timestamp : ℚ

/-- Marker locations produced by `add_tags` for `tagstype == 'single'`
(`src/servis/time_series_bokeh.py`, lines 133-147; identical logic in
`src/servis/time_series.py`, lines 102-115): every tag timestamp is
shifted by `trimxvaluesoffset` and a vertical `Span` is placed at the
shifted timestamp. -/
def add_tags_single_locations (tags : List SingleTag) (trimxvaluesoffset : ℚ) :
    List ℚ :=
  tags.map fun t => t.timestamp + trimxvaluesoffset

/-- Tag marker locations as produced through `time_series_plot`
(`src/servis/time_series_bokeh.py`, lines 344-352; likewise
`src/servis/time_series.py`, lines 270-277), which calls `add_tags`
with `trimxvaluesoffset=-trimxvaluesoffset`: data moved left by the
offset, so tags move left by the same amount. -/
def time_series_plot_tag_locations (tags : List SingleTag)
    (trimxvaluesoffset : ℚ) : List ℚ :=
  add_tags_single_locations tags (-trimxvaluesoffset)

/-- Claim C4: tag markers are shifted by the negative of the trim
offset applied to the data; a single tag whose timestamp equals the
minimum x value of the series before trimming is rendered at location
0 after trimming, matching the data's own shift (the trimmed x data
itself has minimum 0). -/
theorem tag_offset_round_trip (skipfirst : Bool) (xdata ydata : List ℚ)
    (t : SingleTag) (x' y' : List ℚ) (minx : ℚ)
    (hpre : preprocess_single skipfirst true xdata ydata = some (x', y', minx))
    (htag : t.timestamp = minx) :
    time_series_plot_tag_locations [t] minx = [0] ∧ listMin x' = some 0 := by
  constructor
  · simp [time_series_plot_tag_locations, add_tags_single_locations, htag]
  · cases hmin : listMin (xdata.drop (if skipfirst then 1 else 0)) with
    | none =>
      simp only [preprocess_single, hmin, if_true] at hpre
      exact absurd hpre (by simp)
    | some m =>
      simp only [preprocess_single, hmin, if_true, Option.some.injEq,
        Prod.mk.injEq] at hpre
      obtain ⟨hx, -, -⟩ := hpre
      rw [← hx, listMin_map_sub, hmin]
      simp

/-- Witness for `tag_offset_round_trip` at a concrete input. -/
theorem tag_offset_round_trip_witness :
    preprocess_single true true [3, 7, 5] [1, 2, 3] = some ([2, 0], [2, 3], 5) ∧
    (SingleTag.mk "t" 5).timestamp = 5 ∧
    (time_series_plot_tag_locations [SingleTag.mk "t" 5] 5 = [0] ∧
      listMin [2, 0] = some 0) :=
  ⟨by norm_num [preprocess_single, listMin, min_def], rfl,
    tag_offset_round_trip true [3, 7, 5] [1, 2, 3] (SingleTag.mk "t" 5)
      [2, 0] [2, 3] 5
      (by norm_num [preprocess_single, listMin, min_def]) rfl⟩

/-- Witness for `trim_min_adjusted_eq_zero` at a concrete input. -/
theorem trim_min_adjusted_eq_zero_witness :
    ([3, 7, 5] : List ℚ).drop (if true then 1 else 0) ≠ [] ∧
    ((∃ x' y' m, preprocess_single true true [3, 7, 5] [1, 2, 3] = some (x', y', m) ∧
        listMin x' = some 0) ∧
     (∃ x' ys m, preprocess_multi true true [3, 7, 5] [[1, 2, 3]] = some (x', ys, m) ∧
        listMin x' = some 0)) :=
  ⟨by decide, trim_min_adjusted_eq_zero true [3, 7, 5] [1, 2, 3] [[1, 2, 3]] (by decide)⟩

/-- An interval tag, `{'name': ..., 'start': ..., 'end': ...}`. -/
structure IntervalTag where
  name : String
  start : ℚ
  «end» : ℚ

/-- `DEFAULT_ANNOTATION_COLORS` from `src/servis/utils.py`, lines 7-11. -/
def DEFAULT_ANNOTATION_COLORS : List String :=
  ["#01B47E", "#332D37", "#4088F4", "#F15F32"]

/-- The data carried by the `AssertionError` raised in `add_tags` for
`tagstype == 'double'`: the message names the number of colors
available and the number of distinct tag names required. -/
structure PaletteExhausted where
  required : ℕ
  available : ℕ

/-- The interval-tag branch of `add_tags`
(`src/servis/time_series_bokeh.py`, lines 171-221): shift every tag by
`trimxvaluesoffset`, collect the set of distinct tag names, check
`len(palette) >= len(tags_names)` (raising an `AssertionError` naming
both counts otherwise), assign `palette[id]` to the `id`-th distinct
name, and emit one legend item per distinct name.  Python's `set` has
unspecified iteration order; distinct names are modelled by
`List.dedup` (the source additionally sorts the names for legend
display, which does not affect their number).  On success the result
is the per-name color assignment and the legend labels. -/
def add_tags_double (tags : List IntervalTag) (trimxvaluesoffset : ℚ) :
    Except PaletteExhausted (List (String × String) × List String) :=
  let tags := tags.map fun t =>
    { t with start := t.start + trimxvaluesoffset,
             «end» := t.«end» + trimxvaluesoffset }
  let tags_names := (tags.map fun t => t.name).dedup
  if DEFAULT_ANNOTATION_COLORS.length < tags_names.length then
    .error ⟨tags_names.length, DEFAULT_ANNOTATION_COLORS.length⟩
  else
    .ok (tags_names.zip DEFAULT_ANNOTATION_COLORS, tags_names)

theorem add_tags_double_eq (tags : List IntervalTag) (off : ℚ) :
    add_tags_double tags off =
      (if DEFAULT_ANNOTATION_COLORS.length
          < ((tags.map fun t => t.name).dedup).length then
        Except.error ⟨((tags.map fun t => t.name).dedup).length,
          DEFAULT_ANNOTATION_COLORS.length⟩
      else
        Except.ok (((tags.map fun t => t.name).dedup).zip DEFAULT_ANNOTATION_COLORS,
          (tags.map fun t => t.name).dedup)) := by
  simp [add_tags_double, List.map_map, Function.comp_def]

/-- Claim C7: interval-tag annotation fails, with an error naming the
required versus available color counts, exactly when the number of
distinct tag names exceeds the palette size; otherwise it succeeds and
assigns one color per distinct name (the map from names to colors is
one entry per name, with no repeated name) and one legend entry per
distinct name. -/
theorem interval_tags_palette_exhaustion (tags : List IntervalTag) (off : ℚ) :
    ((∃ e, add_tags_double tags off = .error e) ↔
      DEFAULT_ANNOTATION_COLORS.length < ((tags.map fun t => t.name).dedup).length) ∧
    (∀ e, add_tags_double tags off = .error e →
      e.required = ((tags.map fun t => t.name).dedup).length ∧
      e.available = DEFAULT_ANNOTATION_COLORS.length) ∧
    (∀ assignment legend, add_tags_double tags off = .ok (assignment, legend) →
      assignment.map Prod.fst = (tags.map fun t => t.name).dedup ∧
      assignment.length = ((tags.map fun t => t.name).dedup).length ∧
      (assignment.map Prod.fst).Nodup ∧
      legend = (tags.map fun t => t.name).dedup) := by
  rw [add_tags_double_eq]
  by_cases hlen :
      DEFAULT_ANNOTATION_COLORS.length < ((tags.map fun t => t.name).dedup).length
  · rw [if_pos hlen]
    refine ⟨?_, ?_, ?_⟩
    · constructor
      · intro _
        exact hlen
      · intro _
        exact ⟨_, rfl⟩
    · intro e he
      cases he
      exact ⟨rfl, rfl⟩
    · intro assignment legend h
      cases h
  · rw [if_neg hlen]
    refine ⟨?_, ?_, ?_⟩
    · constructor
      · rintro ⟨e, he⟩
        cases he
      · intro h
        exact absurd h hlen
    · intro e he
      cases he
    · intro assignment legend h
      injection h with h
      injection h with h1 h2
      have hfst : assignment.map Prod.fst = (tags.map fun t => t.name).dedup := by
        rw [← h1]
        exact List.map_fst_zip _ _ (le_of_not_lt hlen)
      refine ⟨hfst, ?_, ?_, h2.symm⟩
      · rw [← List.length_map assignment Prod.fst, hfst]
      · rw [hfst]
        exact List.nodup_dedup _

/-- Witness for `interval_tags_palette_exhaustion`: two distinct names
with the four-color palette succeed, with one color and one legend
entry per name. -/
theorem interval_tags_palette_exhaustion_witness :
    ([("A", "#01B47E"), ("B", "#332D37")].map Prod.fst
        = (([IntervalTag.mk "A" 0 2, IntervalTag.mk "B" 3 5].map
            fun t => t.name).dedup) ∧
      ([("A", "#01B47E"), ("B", "#332D37")] : List (String × String)).length
        = (([IntervalTag.mk "A" 0 2, IntervalTag.mk "B" 3 5].map
            fun t => t.name).dedup).length ∧
      ([("A", "#01B47E"), ("B", "#332D37")].map Prod.fst).Nodup ∧
      ["A", "B"] = (([IntervalTag.mk "A" 0 2, IntervalTag.mk "B" 3 5].map
            fun t => t.name).dedup)) :=
  (interval_tags_palette_exhaustion
      [IntervalTag.mk "A" 0 2, IntervalTag.mk "B" 3 5] 0).2.2
    [("A", "#01B47E"), ("B", "#332D37")] ["A", "B"] (by rfl)

/-- Floor of a rational, written as `num / den` with `Int` division
(Euclidean division, which rounds toward `-∞` for the positive
denominator, so this is the mathematical floor). -/
def pyFloor (x : ℚ) : ℤ := x.num / (x.den : ℤ)

/-- Python's built-in `round` on a number: round half to even
(banker's rounding). -/
def pyRound (x : ℚ) : ℤ :=
  let f := pyFloor x
  if x - f < 1/2 then f
  else if (1 : ℚ)/2 < x - f then f + 1
  else if f % 2 = 0 then f else f + 1

/-- Python list indexing `l[i]`: a negative index addresses from the
end of the list; an index out of range (in either direction) raises
`IndexError`, modelled as `none`. -/
def pyListGet {α : Type} (l : List α) (i : ℤ) : Option α :=
  if 0 ≤ i then l.get? i.toNat
  else if i.natAbs ≤ l.length then l.get? (l.length - i.natAbs)
  else none

/-- The 20-entry gradient palette of `get_colors`
(`src/servis/time_series_bokeh.py`, lines 57-78).  The copy of
`get_colors` in `src/servis/time_series.py` (lines 39-58) uses
different hex values but the same palette length and indexing logic. -/
def gradientPaletteColors : List String :=
  ["#09B194", "#1FB59C", "#34BBA4", "#45BFAA", "#5DC5B3",
   "#6FC9B9", "#82CDC0", "#98D3C9", "#ABD7D0", "#C9DAD6",
   "#E3CFCD", "#E5C0BD", "#E6B2AD", "#E7A6A0", "#E6968F",
   "#E68880", "#E77B72", "#E66E64", "#E65F52", "#E74C3E"]

/-- One lookup of `get_colors` (`src/servis/time_series_bokeh.py`,
lines 80-85): `colors[round(float(d)) // 5]`.  Python `//` is floor
division, which for the positive divisor 5 agrees with `Int`
division. -/
def getColorsOne (d : ℚ) : Option String :=
  pyListGet gradientPaletteColors (pyRound d / 5)

/-- `get_colors` maps every data value through the palette lookup;
the whole call raises `IndexError` as soon as one lookup is out of
range. -/
def get_colors (data : List ℚ) : Option (List String) :=
  data.mapM getColorsOne

/-- Claim C10: gradient coloring is partial on its data values.  The
palette lookup `colors[round(v) // 5]` succeeds as a normal index
exactly for `0 ≤ round(v) ≤ 99`; for `round(v) ≥ 100` the index is out
of range and the lookup fails; and for negative values down to
`round(v) ≥ -100` the negative index silently wraps and selects a
color from the far end of the palette. -/
theorem gradient_coloring_only_defined_on_0_100 :
    (∀ d : ℚ, 0 ≤ pyRound d → pyRound d ≤ 99 → (getColorsOne d).isSome = true) ∧
    (∀ d : ℚ, 100 ≤ pyRound d → getColorsOne d = none) ∧
    (∀ d : ℚ, -100 ≤ pyRound d → pyRound d < 0 →
      getColorsOne d = gradientPaletteColors.get?
          (gradientPaletteColors.length - (pyRound d / 5).natAbs) ∧
        (getColorsOne d).isSome = true) := by
  have hlen : gradientPaletteColors.length = 20 := rfl
  refine ⟨?_, ?_, ?_⟩
  · intro d h0 h99
    have hidx : 0 ≤ pyRound d / 5 ∧ (pyRound d / 5).toNat < 20 := by omega
    rw [getColorsOne, pyListGet, if_pos hidx.1, List.get?_eq_get (by omega)]
    rfl
  · intro d h100
    have hidx : 0 ≤ pyRound d / 5 ∧ 20 ≤ (pyRound d / 5).toNat := by omega
    rw [getColorsOne, pyListGet, if_pos hidx.1]
    exact List.get?_eq_none.mpr (by omega)
  · intro d hm100 hneg
    have hneg' : ¬ (0 ≤ pyRound d / 5) := by omega
    have habs : (pyRound d / 5).natAbs ≤ gradientPaletteColors.length := by omega
    refine ⟨?_, ?_⟩
    · rw [getColorsOne, pyListGet, if_neg hneg', if_pos habs]
    · rw [getColorsOne, pyListGet, if_neg hneg', if_pos habs,
        List.get?_eq_get (by omega)]
      rfl

/-- Witness for `gradient_coloring_only_defined_on_0_100` at the
concrete values 42, 150 and -3. -/
theorem gradient_coloring_only_defined_on_0_100_witness :
    (getColorsOne 42).isSome = true ∧
    getColorsOne 150 = none ∧
    (getColorsOne (-3) = gradientPaletteColors.get?
        (gradientPaletteColors.length - (pyRound (-3) / 5).natAbs) ∧
      (getColorsOne (-3)).isSome = true) :=
  ⟨gradient_coloring_only_defined_on_0_100.1 42
      (by norm_num [pyRound, pyFloor]) (by norm_num [pyRound, pyFloor]),
    gradient_coloring_only_defined_on_0_100.2.1 150
      (by norm_num [pyRound, pyFloor]),
    gradient_coloring_only_defined_on_0_100.2.2 (-3)
      (by norm_num [pyRound, pyFloor]) (by norm_num [pyRound, pyFloor])⟩

/-- A Python list comprehension `[f(x) for x in l]` where `f` may
raise: the whole comprehension raises (`none`) as soon as one element
does. -/
def mapOption {α β : Type} (f : α → Option β) : List α → Option (List β)
  | [] => some []
  | x :: xs =>
    match f x, mapOption f xs with
    | some y, some ys => some (y :: ys)
    | _, _ => none

/-- `min_over_lists` from `src/servis/utils.py`, lines 218-232:
`min([min(sub_list) for sub_list in lists])`; `none` models the
`ValueError` raised when the outer list or any sub-list is empty. -/
def min_over_lists (lists : List (List ℚ)) : Option ℚ :=
  (mapOption listMin lists).bind listMin

/-- `max_over_lists` from `src/servis/utils.py`, lines 201-215:
`max([max(sub_list) for sub_list in lists])`. -/
def max_over_lists (lists : List (List ℚ)) : Option ℚ :=
  (mapOption listMax lists).bind listMax

/-- `range_over_lists` from `src/servis/utils.py`, lines 235-251. -/
def range_over_lists (lists : List (List ℚ)) : Option ℚ × Option ℚ :=
  (min_over_lists lists, max_over_lists lists)

theorem mapOption_listMin_nil {L : List (List ℚ)}
    (h : mapOption listMin L = some []) : L = [] := by
  cases L with
  | nil => rfl
  | cons l L =>
    simp only [mapOption] at h
    cases hl : listMin l with
    | none => rw [hl] at h; simp at h
    | some m =>
      rw [hl] at h
      cases hL : mapOption listMin L with
      | none => rw [hL] at h; simp at h
      | some ms => rw [hL] at h; simp at h

theorem mapOption_listMax_nil {L : List (List ℚ)}
    (h : mapOption listMax L = some []) : L = [] := by
  cases L with
  | nil => rfl
  | cons l L =>
    simp only [mapOption] at h
    cases hl : listMax l with
    | none => rw [hl] at h; simp at h
    | some m =>
      rw [hl] at h
      cases hL : mapOption listMax L with
      | none => rw [hL] at h; simp at h
      | some ms => rw [hL] at h; simp at h

/-- The min of sub-list mins is the min of all the values. -/
theorem min_over_lists_spec {L : List (List ℚ)} {lo : ℚ}
    (h : min_over_lists L = some lo) :
    lo ∈ L.flatten ∧ ∀ x ∈ L.flatten, lo ≤ x := by
  induction L generalizing lo with
  | nil => simp [min_over_lists, mapOption, listMin] at h
  | cons l L ih =>
    unfold min_over_lists at h
    simp only [mapOption] at h
    cases hl : listMin l with
    | none => rw [hl] at h; simp at h
    | some m =>
      rw [hl] at h
      cases hL : mapOption listMin L with
      | none => rw [hL] at h; simp at h
      | some ms =>
        rw [hL] at h
        simp only [Option.some_bind] at h
        simp only [listMin] at h
        cases hms : listMin ms with
        | none =>
          rw [hms] at h
          simp only [Option.some.injEq] at h
          have hms' : ms = [] := listMin_eq_none.mp hms
          subst hms'
          have hL' : L = [] := mapOption_listMin_nil hL
          subst hL'
          subst h
          simp only [List.flatten_cons, List.flatten_nil, List.append_nil]
          exact ⟨listMin_mem hl, listMin_le hl⟩
        | some m' =>
          rw [hms] at h
          simp only [Option.some.injEq] at h
          have hrec : min_over_lists L = some m' := by
            unfold min_over_lists
            rw [hL]
            exact hms
          obtain ⟨hmem', hle'⟩ := ih hrec
          subst h
          constructor
          · rcases le_total m m' with hmm | hmm
            · rw [min_eq_left hmm]
              exact List.mem_append_left _ (listMin_mem hl)
            · rw [min_eq_right hmm]
              exact List.mem_append_right _ hmem'
          · intro x hx
            rcases List.mem_append.mp hx with hxl | hxL
            · exact le_trans (min_le_left _ _) (listMin_le hl x hxl)
            · exact le_trans (min_le_right _ _) (hle' x hxL)

/-- The max of sub-list maxes is the max of all the values. -/
theorem max_over_lists_spec {L : List (List ℚ)} {hi : ℚ}
    (h : max_over_lists L = some hi) :
    hi ∈ L.flatten ∧ ∀ x ∈ L.flatten, x ≤ hi := by
  induction L generalizing hi with
  | nil => simp [max_over_lists, mapOption, listMax] at h
  | cons l L ih =>
    unfold max_over_lists at h
    simp only [mapOption] at h
    cases hl : listMax l with
    | none => rw [hl] at h; simp at h
    | some m =>
      rw [hl] at h
      cases hL : mapOption listMax L with
      | none => rw [hL] at h; simp at h
      | some ms =>
        rw [hL] at h
        simp only [Option.some_bind] at h
        simp only [listMax] at h
        cases hms : listMax ms with
        | none =>
          rw [hms] at h
          simp only [Option.some.injEq] at h
          have hms' : ms = [] := listMax_eq_none.mp hms
          subst hms'
          have hL' : L = [] := mapOption_listMax_nil hL
          subst hL'
          subst h
          simp only [List.flatten_cons, List.flatten_nil, List.append_nil]
          exact ⟨listMax_mem hl, listMax_ge hl⟩
        | some m' =>
          rw [hms] at h
          simp only [Option.some.injEq] at h
          have hrec : max_over_lists L = some m' := by
            unfold max_over_lists
            rw [hL]
            exact hms
          obtain ⟨hmem', hge'⟩ := ih hrec
          subst h
          constructor
          · rcases le_total m m' with hmm | hmm
            · rw [max_eq_right hmm]
              exact List.mem_append_right _ hmem'
            · rw [max_eq_left hmm]
              exact List.mem_append_left _ (listMax_mem hl)
          · intro x hx
            rcases List.mem_append.mp hx with hxl | hxL
            · exact le_trans (listMax_ge hl x hxl) (le_max_left _ _)
            · exact le_trans (hge' x hxL) (le_max_right _ _)

/-- Modelled from the spec: the `histogram` function is imported from
`servis.utils` in `src/servis/time_series_bokeh.py` and
`src/servis/time_series_plotext.py` but its definition is absent from
`src/`.  Per the spec (HistogramBinner), it computes `bin_count + 1`
linear, equal-width bin edges spanning the given bounds. -/
def histogramEdges (lo hi : ℚ) (bins : ℕ) : List ℚ :=
  (List.range (bins + 1)).map fun (k : ℕ) => lo + (hi - lo) * (k : ℚ) / (bins : ℚ)

/-- `BETWEEN_SECTION_MARGIN_PERCENT = 0.1` from
`src/servis/time_series_bokeh.py`, line 26. -/
def BETWEEN_SECTION_MARGIN_PERCENT : ℚ := 1/10

/-- `BETWEEN_BAR_MARGIN_PERCENT = 0.` from
`src/servis/time_series_bokeh.py`, line 27. -/
def BETWEEN_BAR_MARGIN_PERCENT : ℚ := 0

/-- The per-series bar sub-slot within one histogram bin, from
`value_histogram` (`src/servis/time_series_bokeh.py`, lines 458-468):

    space_between = edges[1] - edges[0]
    margin = space_between * BETWEEN_SECTION_MARGIN_PERCENT
    bar_width = (space_between - 2*margin) / data_len
    bar_margin = bar_width * BETWEEN_BAR_MARGIN_PERCENT
    bottoms = [e + margin + data_id * bar_width + bar_margin ...]
    tops = [b + bar_width - 2*bar_margin for b in bottoms]

Returns the (bottom, top) pair of the slot of series `data_id` out of
`data_len` for the bin starting at edge `e`. -/
def histBarSlot (space_between : ℚ) (data_len data_id : ℕ) (e : ℚ) : ℚ × ℚ :=
  let margin := space_between * BETWEEN_SECTION_MARGIN_PERCENT
  let bar_width := (space_between - 2 * margin) / (data_len : ℚ)
  let bar_margin := bar_width * BETWEEN_BAR_MARGIN_PERCENT
  let bottom := e + margin + (data_id : ℚ) * bar_width + bar_margin
  (bottom, bottom + bar_width - 2 * bar_margin)

/-- Claim C3: when several series share a histogram pane,
`create_bokeh_plot` bins all of them against
`range_over_lists(sub_ydatas)`, so the shared edges span the union
[min, max] of all the series' y-values; within each bin, a margin of
10% of the bin width is reserved on each side and the remainder is
split into `N` equal sub-slots with zero inter-bar margin, so slots of
different series never overlap. -/
theorem shared_histogram_bins_and_slots (sub_ydatas : List (List ℚ))
    (lo hi : ℚ) (bins N i j : ℕ) (e : ℚ)
    (hrange : range_over_lists sub_ydatas = (some lo, some hi))
    (hbins : 0 < bins) (hij : i < j) (hjN : j < N) :
    (histogramEdges lo hi bins).length = bins + 1 ∧
    (histogramEdges lo hi bins).get? 0 = some lo ∧
    (histogramEdges lo hi bins).getLast? = some hi ∧
    (histogramEdges lo hi bins).get? 1 = some (lo + (hi - lo) / bins) ∧
    ((histBarSlot ((hi - lo) / bins) N i e).2
        - (histBarSlot ((hi - lo) / bins) N i e).1
      = ((hi - lo) / bins) * (1 - 2 * BETWEEN_SECTION_MARGIN_PERCENT) / N) ∧
    (histBarSlot ((hi - lo) / bins) N i e).2
      ≤ (histBarSlot ((hi - lo) / bins) N j e).1 := by
  simp only [range_over_lists, Prod.mk.injEq] at hrange
  obtain ⟨hmin, hmax⟩ := hrange
  have hlohi : lo ≤ hi := (max_over_lists_spec hmax).2 lo (min_over_lists_spec hmin).1
  have hb : ((bins : ℚ)) ≠ 0 := Nat.cast_ne_zero.mpr hbins.ne'
  have hlen : (histogramEdges lo hi bins).length = bins + 1 := by
    rw [histogramEdges, List.length_map, List.length_range]
  have hedge : ∀ k, k < bins + 1 →
      (histogramEdges lo hi bins).get? k = some (lo + (hi - lo) * k / bins) := by
    intro k hk
    rw [histogramEdges, List.get?_map, List.get?_range hk]
    rfl
  refine ⟨hlen, ?_, ?_, ?_, ?_, ?_⟩
  · rw [hedge 0 (by omega)]
    norm_num
  · rw [List.getLast?_eq_get?, hlen, Nat.add_sub_cancel]
    rw [hedge bins (by omega)]
    rw [mul_div_assoc, div_self hb, mul_one]
    norm_num
  · rw [hedge 1 (by omega)]
    norm_num
  · simp only [histBarSlot, BETWEEN_SECTION_MARGIN_PERCENT,
      BETWEEN_BAR_MARGIN_PERCENT]
    ring
  · have hs : (0 : ℚ) ≤ (hi - lo) / bins :=
      div_nonneg (sub_nonneg.mpr hlohi) (Nat.cast_nonneg bins)
    have hw : (0 : ℚ) ≤ ((hi - lo) / bins
        - 2 * ((hi - lo) / bins * BETWEEN_SECTION_MARGIN_PERCENT)) / (N : ℚ) := by
      apply div_nonneg _ (Nat.cast_nonneg N)
      rw [BETWEEN_SECTION_MARGIN_PERCENT]
      nlinarith
    have hcast : ((i : ℚ)) + 1 ≤ (j : ℚ) := by
      have : i + 1 ≤ j := hij
      exact_mod_cast this
    simp only [histBarSlot, BETWEEN_BAR_MARGIN_PERCENT, mul_zero, add_zero,
      sub_zero]
    have := mul_le_mul_of_nonneg_right hcast hw
    linarith [this]

/-- Witness for `shared_histogram_bins_and_slots` on the spec's own
concrete scenario: series `[10, 20, 30]` and `[5, 15, 25]`, 20 bins,
2 series, slots 0 and 1. -/
theorem shared_histogram_bins_and_slots_witness :
    range_over_lists [[10, 20, 30], [5, 15, 25]] = (some 5, some 30) ∧
    ((histogramEdges 5 30 20).length = 20 + 1 ∧
      (histogramEdges 5 30 20).get? 0 = some 5 ∧
      (histogramEdges 5 30 20).getLast? = some 30 ∧
      (histogramEdges 5 30 20).get? 1 = some (5 + (30 - 5) / 20) ∧
      ((histBarSlot ((30 - 5) / 20) 2 0 0).2 - (histBarSlot ((30 - 5) / 20) 2 0 0).1
        = ((30 - 5) / 20) * (1 - 2 * BETWEEN_SECTION_MARGIN_PERCENT) / 2) ∧
      (histBarSlot ((30 - 5) / 20) 2 0 0).2 ≤ (histBarSlot ((30 - 5) / 20) 2 1 0).1) :=
  ⟨by norm_num [range_over_lists, min_over_lists, max_over_lists, mapOption,
      listMin, listMax, min_def, max_def],
    shared_histogram_bins_and_slots [[10, 20, 30], [5, 15, 25]] 5 30 20 2 0 1 0
      (by norm_num [range_over_lists, min_over_lists, max_over_lists, mapOption,
        listMin, listMax, min_def, max_def])
      (by norm_num) (by norm_num) (by norm_num)⟩

/-- `DEFAULT_COLOR` from `src/servis/utils.py`, line 6. -/
def DEFAULT_COLOR : String := "#E74A3C"

/-- Bokeh's built-in `Set1` qualitative palette
(`bokeh.palettes.all_palettes['Set1']`), an external palette database;
per the spec it is an opaque lookup returning `n` colors, defined for
`3 ≤ n ≤ 9` (ColorBrewer `Set1` has at most 9 entries). -/
def all_palettes_Set1 (n : ℕ) : Option (List String) :=
  if 3 ≤ n ∧ n ≤ 9 then
    some (["#e41a1c", "#377eb8", "#4daf4a", "#984ea3", "#ff7f00",
           "#ffff33", "#a65628", "#f781bf", "#999999"].take n)
  else none

/-- `get_color_iterator` from `src/servis/utils.py`, lines 25-57, for
the bokeh branch: `iter(all_palettes[name][max(quantity, 3)])`.  Only
the `Set1` palette (the one `validate_colormap` requests for the
default colormap) is modelled; the matplotlib fallback branch is not
reached for the quantities considered below. -/
def get_color_iterator (name : String) (quantity : ℕ) : Option (List String) :=
  if name = "Set1" then all_palettes_Set1 (max quantity 3) else none

/-- The `colormap is None` branches of `validate_colormap`
(`src/servis/utils.py`, lines 159-165):

    if colormap is None and quantity == 1:
        colors = iter([DEFAULT_COLOR])
    elif colormap is None and quantity > 1:
        color_iter = get_color_iterator("Set1", quantity - 1)
        # Skip first color as it's similar to DEFAULT_COLOR
        next(color_iter)
        colors = itertools.chain([DEFAULT_COLOR], color_iter)

`next(color_iter)` consumes (skips) the first palette color, modelled
by `List.drop 1`.  The final `map` to the backend conversion is the
identity on bokeh hex strings.  `quantity = 0` falls through to the
explicit-list branch and raises `TypeError` on `len(None)`, modelled
as `none`. -/
def validate_colormap_none (quantity : ℕ) : Option (List String) :=
  if quantity = 1 then some [DEFAULT_COLOR]
  else if 1 < quantity then
    (get_color_iterator "Set1" (quantity - 1)).map fun cs =>
      DEFAULT_COLOR :: cs.drop 1
  else none

/-- Claim C5: the claim states that for `count > 1` the default-color
resolution yields the accent color followed by `count - 1` palette
colors, at least `count` colors in total.  In fact
`get_color_iterator("Set1", quantity - 1)` returns only
`max(quantity - 1, 3)` colors, of which one is then skipped, so the
total is `max(quantity - 1, 3)`: for `count = 4` only 3 colors are
produced (and the fourth `next()` raises `StopIteration`), while the
claim holds for `count = 2` and `count = 3`. -/
theorem default_colormap_runs_short :
    (validate_colormap_none 4).map List.length = some 3 ∧
    (validate_colormap_none 4)
      = some [DEFAULT_COLOR, "#377eb8", "#4daf4a"] ∧
    (validate_colormap_none 3).map List.length = some 3 ∧
    (validate_colormap_none 2).map List.length = some 3 := by
  refine ⟨rfl, rfl, rfl, rfl⟩

/-- A caller-supplied color value: either a hex string `'#RRGGBB'`
(represented by its three parsed byte components) or a triple of
floats. -/
inductive PyColor : Type
  | hexs (r g b : ℕ)
  | rgb (r g b : ℚ)

/-- A backend-native color value: a hex string (bokeh, represented by
its three byte components), a float triple (matplotlib), or an
integer triple (plotext). -/
inductive BackendColor : Type
  | hexs (r g b : ℤ)
  | rgbF (r g b : ℚ)
  | rgbI (r g b : ℤ)

/-- Python `int()` on a number: truncation toward zero. -/
def pyTrunc (x : ℚ) : ℤ := if 0 ≤ x then pyFloor x else -pyFloor (-x)

/-- `_to_matplotlib` from `src/servis/utils.py`, lines 60-79: a hex
string is parsed into `int(value[i:i+2], 16) / 255` components; any
other value is returned unchanged. -/
def _to_matplotlib : PyColor → BackendColor
  | .hexs r g b => .rgbF ((r : ℚ) / 255) ((g : ℚ) / 255) ((b : ℚ) / 255)
  | .rgb r g b => .rgbF r g b

/-- `_to_plotext` from `src/servis/utils.py`, lines 82-97:
`value = _to_matplotlib(value); tuple(int(255*v) for v in value)`. -/
def _to_plotext (c : PyColor) : BackendColor :=
  match _to_matplotlib c with
  | .rgbF r g b => .rgbI (pyTrunc (255 * r)) (pyTrunc (255 * g)) (pyTrunc (255 * b))
  | other => other

/-- `_to_bokeh` from `src/servis/utils.py`, lines 100-117: a non-string
is converted via `round(x*255)` per component and formatted as a hex
string; a string is returned unchanged. -/
def _to_bokeh : PyColor → BackendColor
  | .hexs r g b => .hexs r g b
  | .rgb r g b => .hexs (pyRound (r * 255)) (pyRound (g * 255)) (pyRound (b * 255))

/-- The three backend kinds of `_TO_BACKEND_FUNC`
(`src/servis/utils.py`, lines 120-124). -/
inductive Backend : Type
  | bokeh
  | matplotlib
  | plotext

/-- `_TO_BACKEND_FUNC` from `src/servis/utils.py`, lines 120-124. -/
def _TO_BACKEND_FUNC : Backend → PyColor → BackendColor
  | .bokeh => _to_bokeh
  | .matplotlib => _to_matplotlib
  | .plotext => _to_plotext

/-- Whether a converted color is in the given backend's native
encoding: hex string for bokeh, float triple for matplotlib, integer
triple for plotext. -/
def isBackendEncoding : Backend → BackendColor → Bool
  | .bokeh, .hexs _ _ _ => true
  | .matplotlib, .rgbF _ _ _ => true
  | .plotext, .rgbI _ _ _ => true
  | _, _ => false

/-- The explicit-list branch of `validate_colormap`
(`src/servis/utils.py`, lines 166-173):

    assert len(colormap) >= quantity, (
        "There has to be, at least, the same number of colors "
        "as sets of data")
    colors = colormap
    ...
    return map(_TO_BACKEND_FUNC[for_backend], colors)

The `AssertionError` is modelled as `Except.error` carrying the
message. -/
def validate_colormap_list (colormap : List PyColor) (for_backend : Backend)
    (quantity : ℕ) : Except String (List BackendColor) :=
  if colormap.length < quantity then
    .error ("There has to be, at least, the same number of colors "
      ++ "as sets of data")
  else
    .ok (colormap.map (_TO_BACKEND_FUNC for_backend))

/-- Claim C6: resolving an explicit color list for a requested count
`k` fails exactly when the list is shorter than `k`; otherwise it
succeeds and iterating the result yields at least `k` values (one per
supplied color), each in the target backend's native encoding. -/
theorem explicit_color_list_sufficiency (colormap : List PyColor)
    (b : Backend) (k : ℕ) :
    ((∃ e, validate_colormap_list colormap b k = .error e) ↔ colormap.length < k) ∧
    (∀ out, validate_colormap_list colormap b k = .ok out →
      out.length = colormap.length ∧ k ≤ out.length ∧
      ∀ c ∈ out, isBackendEncoding b c = true) := by
  unfold validate_colormap_list
  by_cases hlen : colormap.length < k
  · rw [if_pos hlen]
    refine ⟨⟨fun _ => hlen, fun _ => ⟨_, rfl⟩⟩, ?_⟩
    intro out hout
    cases hout
  · rw [if_neg hlen]
    refine ⟨?_, ?_⟩
    · constructor
      · rintro ⟨e, he⟩
        cases he
      · intro h
        exact absurd h hlen
    · intro out hout
      injection hout with hout
      subst hout
      refine ⟨List.length_map _ _, ?_, ?_⟩
      · rw [List.length_map]
        omega
      · intro c hc
        obtain ⟨a, -, rfl⟩ := List.mem_map.mp hc
        cases b <;> cases a <;>
          simp [_TO_BACKEND_FUNC, _to_bokeh, _to_matplotlib, _to_plotext,
            isBackendEncoding]

/-- Witness for `explicit_color_list_sufficiency`: a two-color list
(one hex string, one float triple) resolved for two series on the
plotext backend yields two integer-triple colors. -/
theorem explicit_color_list_sufficiency_witness :
    ([BackendColor.rgbI 255 0 0, BackendColor.rgbI 0 255 0] :
        List BackendColor).length
      = ([PyColor.hexs 255 0 0, PyColor.rgb 0 1 0] : List PyColor).length ∧
    2 ≤ ([BackendColor.rgbI 255 0 0, BackendColor.rgbI 0 255 0] :
        List BackendColor).length ∧
    isBackendEncoding Backend.plotext (BackendColor.rgbI 255 0 0) = true :=
  have h := (explicit_color_list_sufficiency
      [PyColor.hexs 255 0 0, PyColor.rgb 0 1 0] Backend.plotext 2).2
    [BackendColor.rgbI 255 0 0, BackendColor.rgbI 0 255 0]
    (by norm_num [validate_colormap_list, _TO_BACKEND_FUNC, _to_plotext,
      _to_matplotlib, pyTrunc, pyFloor])
  ⟨h.1, h.2.1, h.2.2 (BackendColor.rgbI 255 0 0) (by simp)⟩

/-- `NOT_SUPPORTED_PARAMS` from `src/servis/time_series_bokeh.py`,
lines 29-31. -/
def NOT_SUPPORTED_PARAMS : List String := ["is_x_timestamp"]

/-- `validate_kwargs` from `src/servis/utils.py`, lines 176-195: the
set of extra keyword arguments minus the tolerated (unsupported but
ignored) parameters must be empty, else an `AssertionError` is
raised. -/
def validate_kwargs (unsupported_params : List String)
    (kwargs : List String) : Bool :=
  kwargs.all fun k => k ∈ unsupported_params

/-- An observable unit of rendering work in `create_bokeh_plot`:
constructing a time-series pane or a histogram pane for one series of
one figure, or writing one output file. -/
inductive RenderStep : Type
  | timeSeriesPane (fig series : ℕ)
  | histogramPane (fig series : ℕ)
  | writeOutput (ext : String)

/-- The two assertion failures at the head of `create_bokeh_plot`. -/
inductive BokehFailure : Type
  | unknownKwargs
  | conflictingColorPolicy

/-- The rendering work performed by the body of `create_bokeh_plot`
(`src/servis/time_series_bokeh.py`, lines 592-770): one time-series
pane and one histogram pane per series of each figure, then one file
write per recognised requested output kind. -/
def bokehRenderSteps (ydatas : List (List (List ℚ)))
    (outputext : List String) : List RenderStep :=
  ((List.range ydatas.length).bind fun f =>
    (List.range (ydatas.getD f []).length).bind fun s =>
      [RenderStep.timeSeriesPane f s, RenderStep.histogramPane f s])
  ++ (outputext.filter fun ext =>
      ext ∈ (["html", "png", "svg"] : List String)).map RenderStep.writeOutput

/-- The head of `create_bokeh_plot`
(`src/servis/time_series_bokeh.py`, lines 588-590):

    validate_kwargs(NOT_SUPPORTED_PARAMS, **kwargs)
    assert not (setgradientcolors and colormap is not None), (
        "setgradientcolors and colormap cannot be used at the same time")

followed by the rendering body.  The result pairs the rendering work
actually performed with the failure, if any: an assertion failure at
the head means no rendering step has been performed.  The colormap is
either an explicit color list or a palette name; only its presence
matters here. -/
def create_bokeh_plot (ydatas : List (List (List ℚ)))
    (outputext : List String) (colormap : Option (List PyColor ⊕ String))
    (setgradientcolors : Bool) (kwargs : List String) :
    List RenderStep × Option BokehFailure :=
  if ¬ validate_kwargs NOT_SUPPORTED_PARAMS kwargs then
    ([], some BokehFailure.unknownKwargs)
  else if setgradientcolors && colormap.isSome then
    ([], some BokehFailure.conflictingColorPolicy)
  else
    (bokehRenderSteps ydatas outputext, none)

/-- Claim C8: whenever gradient coloring and an explicit colormap are
both supplied (in a request whose keyword arguments are otherwise
acceptable), `create_bokeh_plot` fails with the policy-conflict
assertion before any rendering work — no pane is constructed and no
file is written. -/
theorem gradient_colormap_conflict_fails_fast
    (ydatas : List (List (List ℚ))) (outputext : List String)
    (colormap : Option (List PyColor ⊕ String)) (kwargs : List String)
    (hkw : validate_kwargs NOT_SUPPORTED_PARAMS kwargs = true)
    (hcm : colormap.isSome = true) :
    create_bokeh_plot ydatas outputext colormap true kwargs
      = ([], some BokehFailure.conflictingColorPolicy) := by
  simp [create_bokeh_plot, hkw, hcm]

/-- Witness for `gradient_colormap_conflict_fails_fast` at a concrete
request. -/
theorem gradient_colormap_conflict_fails_fast_witness :
    validate_kwargs NOT_SUPPORTED_PARAMS [] = true ∧
    (some (Sum.inr "tab10") : Option (List PyColor ⊕ String)).isSome = true ∧
    create_bokeh_plot [[[1, 2, 3]]] ["html"] (some (Sum.inr "tab10")) true []
      = ([], some BokehFailure.conflictingColorPolicy) :=
  ⟨rfl, rfl,
    gradient_colormap_conflict_fails_fast [[[1, 2, 3]]] ["html"]
      (some (Sum.inr "tab10")) [] rfl rfl⟩

/-- The kind of a Python exception raised while writing the plots:
`OSError` (the class caught by the `except` clause) or any other
exception. -/
inductive PyExcKind : Type
  | osError
  | otherError

/-- The I/O behaviour of one call of `render_ascii_plot`: whether an
output path was given (otherwise `stdout` is used), whether
`open(outpath, 'w')` raises `OSError`, and whether the plotting/writing
inside `redirect_stdout` raises. -/
structure AsciiIOEnv where
  outpathGiven : Bool
  openRaisesOSError : Bool
  writeRaises : Option PyExcKind

/-- How one call of `render_ascii_plot` exits: normally; with the
`OSError` caught and logged; with a non-`OSError` exception
propagated by the `finally` clause; or with the `UnboundLocalError`
raised in `finally` when `open` itself failed and `outfile` was never
bound. -/
inductive AsciiOutcome : Type
  | success
  | loggedOSError
  | propagatedOther
  | propagatedUnboundLocal

/-- The `try/except OSError/finally` structure of `render_ascii_plot`
(`src/servis/time_series_plotext.py`, lines 407-446):

    try:
        if outpath is not None:
            outfile = open(outpath, 'w')
        else:
            outfile = stdout
        with redirect_stdout(outfile):
            ... create_ascii_plot(...) ...
    except OSError as error:
        LOGGER.error(...)
    finally:
        if outpath is not None:
            outfile.close()

Result: the exit outcome, whether a file handle was opened, and
whether that handle was closed.  Python semantics followed faithfully:
an `OSError` anywhere in the `try` body is caught and logged; any
other exception propagates after `finally` runs; when `open` itself
raised, `outfile` is unbound and the `finally` clause raises
`UnboundLocalError` (no handle was opened in that case); `stdout` is
never opened nor closed by this function. -/
def render_ascii_plot_io (env : AsciiIOEnv) : AsciiOutcome × Bool × Bool :=
  if env.outpathGiven then
    if env.openRaisesOSError then
      (AsciiOutcome.propagatedUnboundLocal, false, false)
    else
      match env.writeRaises with
      | none => (AsciiOutcome.success, true, true)
      | some PyExcKind.osError => (AsciiOutcome.loggedOSError, true, true)
      | some PyExcKind.otherError => (AsciiOutcome.propagatedOther, true, true)
  else
    match env.writeRaises with
    | none => (AsciiOutcome.success, false, false)
    | some PyExcKind.osError => (AsciiOutcome.loggedOSError, false, false)
    | some PyExcKind.otherError => (AsciiOutcome.propagatedOther, false, false)

/-- Claim C9: for the text backend, an `OSError` raised while writing
the output (after the handle was opened) is caught and logged, not
propagated; and on every exit path — success or exception — a file
handle that was opened is closed. -/
theorem ascii_write_error_logged_and_handle_closed (env : AsciiIOEnv) :
    (env.openRaisesOSError = false → env.writeRaises = some PyExcKind.osError →
      (render_ascii_plot_io env).1 = AsciiOutcome.loggedOSError) ∧
    ((render_ascii_plot_io env).2.1 = true →
      (render_ascii_plot_io env).2.2 = true) := by
  obtain ⟨op, oe, wr⟩ := env
  rcases wr with - | k
  · cases op <;> cases oe <;> simp [render_ascii_plot_io]
  · cases k <;> cases op <;> cases oe <;> simp [render_ascii_plot_io]

/-- Witness for `ascii_write_error_logged_and_handle_closed`: an
output path is given, `open` succeeds, and the write raises
`OSError`. -/
theorem ascii_write_error_logged_and_handle_closed_witness :
    ((AsciiIOEnv.mk true false (some PyExcKind.osError)).openRaisesOSError
        = false) ∧
    ((render_ascii_plot_io (AsciiIOEnv.mk true false (some PyExcKind.osError))).1
        = AsciiOutcome.loggedOSError ∧
      ((render_ascii_plot_io
            (AsciiIOEnv.mk true false (some PyExcKind.osError))).2.1 = true →
        (render_ascii_plot_io
            (AsciiIOEnv.mk true false (some PyExcKind.osError))).2.2 = true)) :=
  ⟨rfl,
    (ascii_write_error_logged_and_handle_closed
        (AsciiIOEnv.mk true false (some PyExcKind.osError))).1 rfl rfl,
    (ascii_write_error_logged_and_handle_closed
        (AsciiIOEnv.mk true false (some PyExcKind.osError))).2⟩

end Servis
